import Mathlib

/-!
# Command lifecycle of the CLI: `set-space-isolation-segment`, `check-route`, `v3-start`

A shallow embedding of the `Execute` methods of

* `command/v6/set_space_isolation_segment_command.go`
* `command/v7/check_route_command.go`

and of two parts of the repository whose declarations lie elsewhere: the
helper `desiredURL` that `check-route` calls, and `V3StartCommand.Execute`, the
subject of `command/v6/v3_start_command_test.go`.

The collaborators of a command (`SharedActor`, `Config`, the actors) are Go
interfaces; they are embedded as records of functions giving, for the
arguments of a call, the values the call returns.  The `UI` is a sink: every
call made on it, and every call made on an actor, is appended to a log of
`Event`s in program order.  `Execute` returns that log together with the
returned `error`, where `none` is Go's `nil`.
-/

set_option linter.dupNamespace false
set_option maxRecDepth 8000

namespace CLI

/-- A non-nil Go `error` value. -/
structure GoError where
  message : String
  deriving DecidableEq, Repr

/-- Go `v2action.Warnings` and `v3action.Warnings`: a slice of strings. -/
abbrev Warnings := List String

/-- The parameter bag `map[string]interface{}` handed to a template, as the
key/value pairs of the map literal in source order. -/
abbrev Params := List (String × String)

/-- Go `configv3.User`. -/
structure User where
  Name : String
  deriving DecidableEq, Repr

/-- Go `configv3.Organization`. -/
structure Organization where
  GUID : String
  Name : String
  deriving DecidableEq, Repr

/-- Go `configv3.Space` and `v2action.Space`, restricted to the fields read. -/
structure Space where
  GUID : String
  Name : String
  deriving DecidableEq, Repr

/-- One observable call made by a command: a call on `command.UI`, or a call
on one of its actors (with the arguments passed). -/
inductive Event where
  | DisplayText (template : String) (params : Params)
  | DisplayTextWithFlavor (template : String) (params : Params)
  | DisplayWarning (template : String) (params : Params)
  | DisplayWarnings (warnings : Warnings)
  | DisplayOK
  | GetSpaceByOrganizationAndName (orgGUID spaceName : String)
  | AssignIsolationSegmentToSpaceByNameAndSpace (isolationSegmentName spaceGUID : String)
  | CheckRoute (domain hostname path : String) (port : Int)
  | GetApplicationByNameAndSpace (appName spaceGUID : String)
  | StartApplication (appGUID : String)
  deriving DecidableEq, Repr

/-- Whether the event is a call on `command.UI`. -/
def Event.isUI : Event → Bool
  | .DisplayText _ _ => true
  | .DisplayTextWithFlavor _ _ => true
  | .DisplayWarning _ _ => true
  | .DisplayWarnings _ => true
  | .DisplayOK => true
  | _ => false

/-- Whether the event is a call on an actor. -/
def Event.isActorCall (e : Event) : Bool := !e.isUI

/-- The calls made on `command.UI`, in order. -/
def uiCalls (log : List Event) : List Event := log.filter Event.isUI

/-- The calls made on the actors, in order. -/
def actorCalls (log : List Event) : List Event := log.filter Event.isActorCall

/-- The argument of each `UI.DisplayWarnings` call, in order. -/
def displayedWarnings (log : List Event) : List Warnings :=
  log.filterMap fun e => match e with
    | .DisplayWarnings ws => some ws
    | _ => none

/-- Go `command.SharedActor`. -/
structure SharedActor where
  CheckTarget : Bool → Bool → Option GoError

/-- Go `command.Config`, restricted to the accessors the commands call.  The
session is read-only during a command, so each accessor is a value. -/
structure Config where
  CurrentUser : User × Option GoError
  TargetedOrganization : Organization
  TargetedSpace : Space

/-- Go `flag.SpaceIsolationArgs`. -/
structure SpaceIsolationArgs where
  SpaceName : String
  IsolationSegmentName : String

/-- Go interface `SetSpaceIsolationSegmentActor`. -/
structure SetSpaceIsolationSegmentActor where
  AssignIsolationSegmentToSpaceByNameAndSpace : String → String → Warnings × Option GoError

/-- Go interface `SetSpaceIsolationSegmentActorV2`. -/
structure SetSpaceIsolationSegmentActorV2 where
  GetSpaceByOrganizationAndName : String → String → Space × Warnings × Option GoError

/-- Go `SetSpaceIsolationSegmentCommand`; the `UI` field is the event log. -/
structure SetSpaceIsolationSegmentCommand where
  RequiredArgs : SpaceIsolationArgs
  Config : Config
  SharedActor : SharedActor
  Actor : SetSpaceIsolationSegmentActor
  ActorV2 : SetSpaceIsolationSegmentActorV2

/-- The intent message of `set-space-isolation-segment`. -/
def SetSpaceIsolationSegmentCommand.intent (cmd : SetSpaceIsolationSegmentCommand)
    (user : User) : Event :=
  .DisplayTextWithFlavor
    "Updating isolation segment of space {{.SpaceName}} in org {{.OrgName}} as {{.CurrentUser}}..."
    [("SegmentName", cmd.RequiredArgs.IsolationSegmentName),
     ("SpaceName", cmd.RequiredArgs.SpaceName),
     ("OrgName", cmd.Config.TargetedOrganization.Name),
     ("CurrentUser", user.Name)]

/-- The closing hint of `set-space-isolation-segment`. -/
def SetSpaceIsolationSegmentCommand.hint : Event :=
  .DisplayText
    "In order to move running applications to this isolation segment, they must be restarted." []

/-- `SetSpaceIsolationSegmentCommand.Execute`: the log of UI and actor calls,
and the returned error. -/
def SetSpaceIsolationSegmentCommand.Execute (cmd : SetSpaceIsolationSegmentCommand) :
    List Event × Option GoError :=
  match cmd.SharedActor.CheckTarget true false with
  | some err => ([], some err)
  | none =>
    match cmd.Config.CurrentUser with
    | (_, some err) => ([], some err)
    | (user, none) =>
      let log := [cmd.intent user]
      let orgGUID := cmd.Config.TargetedOrganization.GUID
      match cmd.ActorV2.GetSpaceByOrganizationAndName orgGUID cmd.RequiredArgs.SpaceName with
      | (_, v2Warnings, some err) =>
        (log ++ [.GetSpaceByOrganizationAndName orgGUID cmd.RequiredArgs.SpaceName,
                 .DisplayWarnings v2Warnings], some err)
      | (space, v2Warnings, none) =>
        let log := log ++ [.GetSpaceByOrganizationAndName orgGUID cmd.RequiredArgs.SpaceName,
                           .DisplayWarnings v2Warnings]
        match cmd.Actor.AssignIsolationSegmentToSpaceByNameAndSpace
            cmd.RequiredArgs.IsolationSegmentName space.GUID with
        | (warnings, some err) =>
          (log ++ [.AssignIsolationSegmentToSpaceByNameAndSpace
                     cmd.RequiredArgs.IsolationSegmentName space.GUID,
                   .DisplayWarnings warnings], some err)
        | (warnings, none) =>
          (log ++ [.AssignIsolationSegmentToSpaceByNameAndSpace
                     cmd.RequiredArgs.IsolationSegmentName space.GUID,
                   .DisplayWarnings warnings,
                   .DisplayOK,
                   SetSpaceIsolationSegmentCommand.hint],
           none)

/-- Modelled from the spec: `desiredURL` (the spec's `composeURL`, section 4.4)
is declared in package `v7` outside the sources at hand.  With a non-zero port
the result is the domain, a colon and the port in decimal; otherwise it is the
domain, prefixed by the hostname and a dot when the hostname is non-empty,
followed by the path when the path is non-empty. -/
def desiredURL (domain hostname path : String) (port : Int) : String :=
  if port ≠ 0 then
    domain ++ ":" ++ toString port
  else
    (if hostname ≠ "" then hostname ++ "." ++ domain else domain) ++
      (if path ≠ "" then path else "")

/-- Go `flag.Domain`. -/
structure Domain where
  Domain : String

/-- Go `flag.V7RoutePath`. -/
structure V7RoutePath where
  Path : String

/-- The part of the `Actor` interface of `BaseCommand` that `check-route` calls. -/
structure CheckRouteActor where
  CheckRoute : String → String → String → Int → Bool × Warnings × Option GoError

/-- Go `CheckRouteCommand`, with the `Config`, `SharedActor` and `Actor` fields
of the embedded `BaseCommand`; the `UI` field is the event log. -/
structure CheckRouteCommand where
  RequiredArgs : Domain
  Hostname : String
  Path : V7RoutePath
  Port : Int
  Config : Config
  SharedActor : SharedActor
  Actor : CheckRouteActor

/-- The intent message of `check-route`. -/
def CheckRouteCommand.intent : Event :=
  .DisplayText "Checking for route..." []

/-- The status line of `check-route` for a lookup that answered `matches` (a reserved word here, hence `matched`). -/
def CheckRouteCommand.status (cmd : CheckRouteCommand) (matched : Bool) : Event :=
  let formatParams : Params :=
    [("URL", desiredURL cmd.RequiredArgs.Domain cmd.Hostname cmd.Path.Path cmd.Port)]
  if matched then
    .DisplayText "Route '{{.URL}}' does exist." formatParams
  else
    .DisplayText "Route '{{.URL}}' does not exist." formatParams

/-- `CheckRouteCommand.Execute`: the log of UI and actor calls, and the
returned error. -/
def CheckRouteCommand.Execute (cmd : CheckRouteCommand) : List Event × Option GoError :=
  match cmd.SharedActor.CheckTarget true false with
  | some err => ([], some err)
  | none =>
    match cmd.Config.CurrentUser with
    | (_, some err) => ([], some err)
    | (_, none) =>
      let log := [CheckRouteCommand.intent]
      let path := cmd.Path.Path
      match cmd.Actor.CheckRoute cmd.RequiredArgs.Domain cmd.Hostname path cmd.Port with
      | (_, warnings, some err) =>
        (log ++ [.CheckRoute cmd.RequiredArgs.Domain cmd.Hostname path cmd.Port,
                 .DisplayWarnings warnings], some err)
      | (matched, warnings, none) =>
        (log ++ [.CheckRoute cmd.RequiredArgs.Domain cmd.Hostname path cmd.Port,
                 .DisplayWarnings warnings,
                 cmd.status matched,
                 .DisplayOK], none)

/-- Go `constant.ApplicationStarted`. -/
def ApplicationStarted : String := "STARTED"

/-- Go `constant.ApplicationStopped`. -/
def ApplicationStopped : String := "STOPPED"

/-- Go `v3action.Application`, restricted to the fields the tests set. -/
structure Application where
  GUID : String
  State : String
  deriving DecidableEq, Repr

/-- Go `flag.AppName`. -/
structure AppName where
  AppName : String

/-- Go interface `V3StartActor`, as faked by `v6fakes.FakeV3StartActor`. -/
structure V3StartActor where
  GetApplicationByNameAndSpace : String → String → Application × Warnings × Option GoError
  StartApplication : String → Warnings × Option GoError

/-- Go `V3StartCommand` as built in `v3_start_command_test.go`; the `UI` field
is the event log. -/
structure V3StartCommand where
  RequiredArgs : AppName
  Config : Config
  SharedActor : SharedActor
  Actor : V3StartActor

/-- The notice every run of `v3-start` prints first on the error stream. -/
def V3StartCommand.experimental : Event :=
  .DisplayWarning "This command is in EXPERIMENTAL stage and may change without notice" []

/-- The intent message of `v3-start`. -/
def V3StartCommand.intent (cmd : V3StartCommand) (user : User) : Event :=
  .DisplayTextWithFlavor
    "Starting app {{.AppName}} in org {{.OrgName}} / space {{.SpaceName}} as {{.Username}}..."
    [("AppName", cmd.RequiredArgs.AppName),
     ("OrgName", cmd.Config.TargetedOrganization.Name),
     ("SpaceName", cmd.Config.TargetedSpace.Name),
     ("Username", user.Name)]

/-- The notice of `v3-start` for an application that is already started. -/
def V3StartCommand.alreadyStarted (cmd : V3StartCommand) : Event :=
  .DisplayWarning "App {{.AppName}} is already started." [("AppName", cmd.RequiredArgs.AppName)]

/-- Modelled from the spec: `V3StartCommand.Execute` is not among the sources at
hand, only its unit tests are.  Following section 4.3, scenarios A, B and C of
section 8 and `v3_start_command_test.go`: the experimental notice is printed,
`CheckTarget(true, true)` and `CurrentUser` are checked, the application is
looked up by name in the targeted space and the lookup warnings are displayed;
a lookup error is returned as it is; an application already started gets the
"already started" notice and the success marker; otherwise the intent message
is displayed, `StartApplication` is called with the GUID of the application,
its warnings are displayed and, without an error, the success marker. -/
def V3StartCommand.Execute (cmd : V3StartCommand) : List Event × Option GoError :=
  let log := [V3StartCommand.experimental]
  match cmd.SharedActor.CheckTarget true true with
  | some err => (log, some err)
  | none =>
    match cmd.Config.CurrentUser with
    | (_, some err) => (log, some err)
    | (user, none) =>
      let spaceGUID := cmd.Config.TargetedSpace.GUID
      match cmd.Actor.GetApplicationByNameAndSpace cmd.RequiredArgs.AppName spaceGUID with
      | (_, warnings, some err) =>
        (log ++ [.GetApplicationByNameAndSpace cmd.RequiredArgs.AppName spaceGUID,
                 .DisplayWarnings warnings], some err)
      | (app, warnings, none) =>
        let log := log ++ [.GetApplicationByNameAndSpace cmd.RequiredArgs.AppName spaceGUID,
                           .DisplayWarnings warnings]
        if app.State = ApplicationStarted then
          (log ++ [cmd.alreadyStarted, .DisplayOK], none)
        else
          match cmd.Actor.StartApplication app.GUID with
          | (warnings, some err) =>
            (log ++ [cmd.intent user, .StartApplication app.GUID, .DisplayWarnings warnings],
             some err)
          | (warnings, none) =>
            (log ++ [cmd.intent user, .StartApplication app.GUID, .DisplayWarnings warnings,
                     .DisplayOK], none)

/-- Whether `template` interpolates the parameter `key`, as `{{.key}}`. -/
def interpolates (template key : String) : Prop :=
  ("\x7b\x7b." ++ key ++ "\x7d\x7d").data <:+: template.data

instance (template key : String) : Decidable (interpolates template key) := by
  unfold interpolates; infer_instance

/-- The template and the parameter bag of a text-displaying UI call. -/
def Event.text : Event → Option (String × Params)
  | .DisplayText t ps => some (t, ps)
  | .DisplayTextWithFlavor t ps => some (t, ps)
  | .DisplayWarning t ps => some (t, ps)
  | _ => none

/-- A UI call names the value `v` when its parameter bag binds `v` to a key
that its template interpolates. -/
def Event.names (e : Event) (v : String) : Prop :=
  match e.text with
  | some (t, ps) => ∃ kv ∈ ps, kv.2 = v ∧ interpolates t kv.1
  | none => False

instance (e : Event) (v : String) : Decidable (e.names v) := by
  unfold Event.names; split <;> infer_instance

/-! ## Fakes

Commands whose collaborators return fixed values whatever the arguments, as
the counterfeiter fakes of the unit tests do (`CheckTargetReturns`,
`CurrentUserReturns`, ...). -/

/-- A fake session: targeted organization `some-org`, targeted space
`some-space`, and the given answer of `CurrentUser`. -/
def fakeConfig (currentUser : User × Option GoError) : Config where
  CurrentUser := currentUser
  TargetedOrganization := ⟨"some-org-guid", "some-org"⟩
  TargetedSpace := ⟨"some-space-guid", "some-space"⟩

/-- A `set-space-isolation-segment some-space some-segment` whose
collaborators return the given values. -/
def fakeSetSpaceIsolationSegment (checkTarget : Option GoError)
    (currentUser : User × Option GoError) (getSpace : Space × Warnings × Option GoError)
    (assign : Warnings × Option GoError) : SetSpaceIsolationSegmentCommand where
  RequiredArgs := ⟨"some-space", "some-segment"⟩
  Config := fakeConfig currentUser
  SharedActor := ⟨fun _ _ => checkTarget⟩
  Actor := ⟨fun _ _ => assign⟩
  ActorV2 := ⟨fun _ _ => getSpace⟩

/-- A `check-route` of the given domain, hostname, path and port whose
collaborators return the given values. -/
def fakeCheckRoute (domain hostname path : String) (port : Int)
    (checkTarget : Option GoError) (currentUser : User × Option GoError)
    (checkRoute : Bool × Warnings × Option GoError) : CheckRouteCommand where
  RequiredArgs := ⟨domain⟩
  Hostname := hostname
  Path := ⟨path⟩
  Port := port
  Config := fakeConfig currentUser
  SharedActor := ⟨fun _ _ => checkTarget⟩
  Actor := ⟨fun _ _ _ _ => checkRoute⟩

/-- A `v3-start some-app` whose collaborators return the given values. -/
def fakeV3Start (checkTarget : Option GoError) (currentUser : User × Option GoError)
    (getApplication : Application × Warnings × Option GoError)
    (startApplication : Warnings × Option GoError) : V3StartCommand where
  RequiredArgs := ⟨"some-app"⟩
  Config := fakeConfig currentUser
  SharedActor := ⟨fun _ _ => checkTarget⟩
  Actor := ⟨fun _ _ => getApplication, fun _ => startApplication⟩

/-- The successful run of `set-space-isolation-segment some-space some-segment`
by `steve` in `some-org`, both actor calls returning warnings. -/
def successfulSetSpaceIsolationSegment : SetSpaceIsolationSegmentCommand :=
  fakeSetSpaceIsolationSegment none (⟨"steve"⟩, none)
    (⟨"some-space-guid", "some-space"⟩, ["get-warning-1", "get-warning-2"], none)
    (["assign-warning-1", "assign-warning-2"], none)

/-- The successful run of `check-route example.com --hostname myhost --path /foo`
by `steve` in `some-org`, for the given answer of the route check. -/
def successfulCheckRoute (matched : Bool) : CheckRouteCommand :=
  fakeCheckRoute "example.com" "myhost" "/foo" 0 none (⟨"steve"⟩, none)
    (matched, ["check-warning-1", "check-warning-2"], none)

/-! ## The values a command receives from its actors -/

/-- The values returned by the space lookup of the command. -/
def SetSpaceIsolationSegmentCommand.lookup (cmd : SetSpaceIsolationSegmentCommand) :
    Space × Warnings × Option GoError :=
  cmd.ActorV2.GetSpaceByOrganizationAndName cmd.Config.TargetedOrganization.GUID
    cmd.RequiredArgs.SpaceName

/-- The values returned by the assignment of the command, for the space the
lookup returned. -/
def SetSpaceIsolationSegmentCommand.assignment (cmd : SetSpaceIsolationSegmentCommand) :
    Warnings × Option GoError :=
  cmd.Actor.AssignIsolationSegmentToSpaceByNameAndSpace cmd.RequiredArgs.IsolationSegmentName
    cmd.lookup.1.GUID

/-- The lookup call of the command, as an event. -/
def SetSpaceIsolationSegmentCommand.lookupCall (cmd : SetSpaceIsolationSegmentCommand) : Event :=
  .GetSpaceByOrganizationAndName cmd.Config.TargetedOrganization.GUID cmd.RequiredArgs.SpaceName

/-- The assignment call of the command, as an event. -/
def SetSpaceIsolationSegmentCommand.assignCall (cmd : SetSpaceIsolationSegmentCommand) : Event :=
  .AssignIsolationSegmentToSpaceByNameAndSpace cmd.RequiredArgs.IsolationSegmentName
    cmd.lookup.1.GUID

/-- The values returned by the route check of the command. -/
def CheckRouteCommand.check (cmd : CheckRouteCommand) : Bool × Warnings × Option GoError :=
  cmd.Actor.CheckRoute cmd.RequiredArgs.Domain cmd.Hostname cmd.Path.Path cmd.Port

/-- The route check of the command, as an event. -/
def CheckRouteCommand.checkCall (cmd : CheckRouteCommand) : Event :=
  .CheckRoute cmd.RequiredArgs.Domain cmd.Hostname cmd.Path.Path cmd.Port

/-- The values returned by the application lookup of the command. -/
def V3StartCommand.lookup (cmd : V3StartCommand) : Application × Warnings × Option GoError :=
  cmd.Actor.GetApplicationByNameAndSpace cmd.RequiredArgs.AppName cmd.Config.TargetedSpace.GUID

/-- The application lookup of the command, as an event. -/
def V3StartCommand.lookupCall (cmd : V3StartCommand) : Event :=
  .GetApplicationByNameAndSpace cmd.RequiredArgs.AppName cmd.Config.TargetedSpace.GUID

/-- The values returned by the start of the application the lookup returned. -/
def V3StartCommand.start (cmd : V3StartCommand) : Warnings × Option GoError :=
  cmd.Actor.StartApplication cmd.lookup.1.GUID

/-- The arguments of each `GetSpaceByOrganizationAndName` call, in order. -/
def getSpaceCalls (log : List Event) : List (String × String) :=
  log.filterMap fun e => match e with
    | .GetSpaceByOrganizationAndName orgGUID spaceName => some (orgGUID, spaceName)
    | _ => none

/-- The arguments of each `AssignIsolationSegmentToSpaceByNameAndSpace` call,
in order. -/
def assignCalls (log : List Event) : List (String × String) :=
  log.filterMap fun e => match e with
    | .AssignIsolationSegmentToSpaceByNameAndSpace name spaceGUID => some (name, spaceGUID)
    | _ => none

/-- The arguments of each `CheckRoute` call, in order. -/
def checkRouteCalls (log : List Event) : List (String × String × String × Int) :=
  log.filterMap fun e => match e with
    | .CheckRoute domain hostname path port => some (domain, hostname, path, port)
    | _ => none

/-- The argument of each `StartApplication` call, in order. -/
def startCalls (log : List Event) : List String :=
  log.filterMap fun e => match e with
    | .StartApplication appGUID => some appGUID
    | _ => none

/-- Some `GetSpaceByOrganizationAndName` call was made in the run and returned
no error. -/
def SetSpaceIsolationSegmentCommand.lookupReturnedNoError
    (cmd : SetSpaceIsolationSegmentCommand) : Prop :=
  ∃ a ∈ getSpaceCalls cmd.Execute.1, (cmd.ActorV2.GetSpaceByOrganizationAndName a.1 a.2).2.2 = none

/-- Some `AssignIsolationSegmentToSpaceByNameAndSpace` call was made in the run
and returned no error. -/
def SetSpaceIsolationSegmentCommand.assignReturnedNoError
    (cmd : SetSpaceIsolationSegmentCommand) : Prop :=
  ∃ a ∈ assignCalls cmd.Execute.1,
    (cmd.Actor.AssignIsolationSegmentToSpaceByNameAndSpace a.1 a.2).2 = none

/-- Some `CheckRoute` call was made in the run and returned no error. -/
def CheckRouteCommand.checkReturnedNoError (cmd : CheckRouteCommand) : Prop :=
  ∃ a ∈ checkRouteCalls cmd.Execute.1, (cmd.Actor.CheckRoute a.1 a.2.1 a.2.2.1 a.2.2.2).2.2 = none

/-! ## The runs of `set-space-isolation-segment` -/

theorem SetSpaceIsolationSegmentCommand.isolation_target_error
    (cmd : SetSpaceIsolationSegmentCommand) {e : GoError}
    (h : cmd.SharedActor.CheckTarget true false = some e) : cmd.Execute = ([], some e) := by
  simp [SetSpaceIsolationSegmentCommand.Execute, h]

theorem SetSpaceIsolationSegmentCommand.isolation_user_error
    (cmd : SetSpaceIsolationSegmentCommand) {e : GoError}
    (h : cmd.SharedActor.CheckTarget true false = none)
    (hu : cmd.Config.CurrentUser.2 = some e) : cmd.Execute = ([], some e) := by
  rcases hcu : cmd.Config.CurrentUser with ⟨user, _ | e2⟩ <;>
    simp_all [SetSpaceIsolationSegmentCommand.Execute]

theorem SetSpaceIsolationSegmentCommand.isolation_lookup_error
    (cmd : SetSpaceIsolationSegmentCommand) {e : GoError}
    (h : cmd.SharedActor.CheckTarget true false = none)
    (hu : cmd.Config.CurrentUser.2 = none) (hl : cmd.lookup.2.2 = some e) :
    cmd.Execute =
      ([cmd.intent cmd.Config.CurrentUser.1, cmd.lookupCall, .DisplayWarnings cmd.lookup.2.1],
       some e) := by
  rcases hcu : cmd.Config.CurrentUser with ⟨user, _ | e2⟩
  · rcases hgs : cmd.ActorV2.GetSpaceByOrganizationAndName cmd.Config.TargetedOrganization.GUID
      cmd.RequiredArgs.SpaceName with ⟨space, ws, _ | e3⟩ <;>
    simp_all [SetSpaceIsolationSegmentCommand.Execute, SetSpaceIsolationSegmentCommand.lookup,
      SetSpaceIsolationSegmentCommand.lookupCall]
  · simp_all

theorem SetSpaceIsolationSegmentCommand.isolation_assign_error
    (cmd : SetSpaceIsolationSegmentCommand) {e : GoError}
    (h : cmd.SharedActor.CheckTarget true false = none)
    (hu : cmd.Config.CurrentUser.2 = none) (hl : cmd.lookup.2.2 = none)
    (ha : cmd.assignment.2 = some e) :
    cmd.Execute =
      ([cmd.intent cmd.Config.CurrentUser.1, cmd.lookupCall, .DisplayWarnings cmd.lookup.2.1,
        cmd.assignCall, .DisplayWarnings cmd.assignment.1], some e) := by
  rcases hcu : cmd.Config.CurrentUser with ⟨user, _ | e2⟩
  · rcases hgs : cmd.ActorV2.GetSpaceByOrganizationAndName cmd.Config.TargetedOrganization.GUID
      cmd.RequiredArgs.SpaceName with ⟨space, ws, _ | e3⟩
    · rcases has : cmd.Actor.AssignIsolationSegmentToSpaceByNameAndSpace
        cmd.RequiredArgs.IsolationSegmentName space.GUID with ⟨ws2, _ | e4⟩ <;>
      simp_all [SetSpaceIsolationSegmentCommand.Execute, SetSpaceIsolationSegmentCommand.lookup,
        SetSpaceIsolationSegmentCommand.lookupCall, SetSpaceIsolationSegmentCommand.assignment,
        SetSpaceIsolationSegmentCommand.assignCall]
    · simp_all [SetSpaceIsolationSegmentCommand.lookup]
  · simp_all

theorem SetSpaceIsolationSegmentCommand.isolation_ok (cmd : SetSpaceIsolationSegmentCommand)
    (h : cmd.SharedActor.CheckTarget true false = none)
    (hu : cmd.Config.CurrentUser.2 = none) (hl : cmd.lookup.2.2 = none)
    (ha : cmd.assignment.2 = none) :
    cmd.Execute =
      ([cmd.intent cmd.Config.CurrentUser.1, cmd.lookupCall, .DisplayWarnings cmd.lookup.2.1,
        cmd.assignCall, .DisplayWarnings cmd.assignment.1, .DisplayOK,
        SetSpaceIsolationSegmentCommand.hint], none) := by
  rcases hcu : cmd.Config.CurrentUser with ⟨user, _ | e2⟩
  · rcases hgs : cmd.ActorV2.GetSpaceByOrganizationAndName cmd.Config.TargetedOrganization.GUID
      cmd.RequiredArgs.SpaceName with ⟨space, ws, _ | e3⟩
    · rcases has : cmd.Actor.AssignIsolationSegmentToSpaceByNameAndSpace
        cmd.RequiredArgs.IsolationSegmentName space.GUID with ⟨ws2, _ | e4⟩ <;>
      simp_all [SetSpaceIsolationSegmentCommand.Execute, SetSpaceIsolationSegmentCommand.lookup,
        SetSpaceIsolationSegmentCommand.lookupCall, SetSpaceIsolationSegmentCommand.assignment,
        SetSpaceIsolationSegmentCommand.assignCall, SetSpaceIsolationSegmentCommand.hint]
    · simp_all [SetSpaceIsolationSegmentCommand.lookup]
  · simp_all

/-! ## The runs of `check-route` -/

theorem CheckRouteCommand.route_target_error (cmd : CheckRouteCommand) {e : GoError}
    (h : cmd.SharedActor.CheckTarget true false = some e) : cmd.Execute = ([], some e) := by
  simp [CheckRouteCommand.Execute, h]

theorem CheckRouteCommand.route_user_error (cmd : CheckRouteCommand) {e : GoError}
    (h : cmd.SharedActor.CheckTarget true false = none)
    (hu : cmd.Config.CurrentUser.2 = some e) : cmd.Execute = ([], some e) := by
  rcases hcu : cmd.Config.CurrentUser with ⟨user, _ | e2⟩ <;>
    simp_all [CheckRouteCommand.Execute]

theorem CheckRouteCommand.route_check_error (cmd : CheckRouteCommand) {e : GoError}
    (h : cmd.SharedActor.CheckTarget true false = none)
    (hu : cmd.Config.CurrentUser.2 = none) (hc : cmd.check.2.2 = some e) :
    cmd.Execute =
      ([CheckRouteCommand.intent, cmd.checkCall, .DisplayWarnings cmd.check.2.1], some e) := by
  rcases hcu : cmd.Config.CurrentUser with ⟨user, _ | e2⟩
  · rcases hcr : cmd.Actor.CheckRoute cmd.RequiredArgs.Domain cmd.Hostname cmd.Path.Path
      cmd.Port with ⟨m, ws, _ | e3⟩ <;>
    simp_all [CheckRouteCommand.Execute, CheckRouteCommand.check, CheckRouteCommand.checkCall]
  · simp_all

theorem CheckRouteCommand.route_ok (cmd : CheckRouteCommand)
    (h : cmd.SharedActor.CheckTarget true false = none)
    (hu : cmd.Config.CurrentUser.2 = none) (hc : cmd.check.2.2 = none) :
    cmd.Execute =
      ([CheckRouteCommand.intent, cmd.checkCall, .DisplayWarnings cmd.check.2.1,
        cmd.status cmd.check.1, .DisplayOK], none) := by
  rcases hcu : cmd.Config.CurrentUser with ⟨user, _ | e2⟩
  · rcases hcr : cmd.Actor.CheckRoute cmd.RequiredArgs.Domain cmd.Hostname cmd.Path.Path
      cmd.Port with ⟨m, ws, _ | e3⟩ <;>
    simp_all [CheckRouteCommand.Execute, CheckRouteCommand.check, CheckRouteCommand.checkCall]
  · simp_all

/-! ## The runs of `v3-start` -/

theorem V3StartCommand.start_lookup_error (cmd : V3StartCommand) {e : GoError}
    (h : cmd.SharedActor.CheckTarget true true = none)
    (hu : cmd.Config.CurrentUser.2 = none) (hl : cmd.lookup.2.2 = some e) :
    cmd.Execute =
      ([V3StartCommand.experimental, cmd.lookupCall, .DisplayWarnings cmd.lookup.2.1],
       some e) := by
  rcases hcu : cmd.Config.CurrentUser with ⟨user, _ | e2⟩
  · rcases hga : cmd.Actor.GetApplicationByNameAndSpace cmd.RequiredArgs.AppName
      cmd.Config.TargetedSpace.GUID with ⟨app, ws, _ | e3⟩ <;>
    simp_all [V3StartCommand.Execute, V3StartCommand.lookup, V3StartCommand.lookupCall]
  · simp_all

theorem V3StartCommand.start_already_started (cmd : V3StartCommand)
    (h : cmd.SharedActor.CheckTarget true true = none)
    (hu : cmd.Config.CurrentUser.2 = none) (hl : cmd.lookup.2.2 = none)
    (hs : cmd.lookup.1.State = ApplicationStarted) :
    cmd.Execute =
      ([V3StartCommand.experimental, cmd.lookupCall, .DisplayWarnings cmd.lookup.2.1,
        cmd.alreadyStarted, .DisplayOK], none) := by
  rcases hcu : cmd.Config.CurrentUser with ⟨user, _ | e2⟩
  · rcases hga : cmd.Actor.GetApplicationByNameAndSpace cmd.RequiredArgs.AppName
      cmd.Config.TargetedSpace.GUID with ⟨app, ws, _ | e3⟩ <;>
    simp_all [V3StartCommand.Execute, V3StartCommand.lookup, V3StartCommand.lookupCall]
  · simp_all

theorem V3StartCommand.start_start_error (cmd : V3StartCommand) {e : GoError}
    (h : cmd.SharedActor.CheckTarget true true = none)
    (hu : cmd.Config.CurrentUser.2 = none) (hl : cmd.lookup.2.2 = none)
    (hs : cmd.lookup.1.State ≠ ApplicationStarted) (ha : cmd.start.2 = some e) :
    cmd.Execute =
      ([V3StartCommand.experimental, cmd.lookupCall, .DisplayWarnings cmd.lookup.2.1,
        cmd.intent cmd.Config.CurrentUser.1, .StartApplication cmd.lookup.1.GUID,
        .DisplayWarnings cmd.start.1], some e) := by
  rcases hcu : cmd.Config.CurrentUser with ⟨user, _ | e2⟩
  · rcases hga : cmd.Actor.GetApplicationByNameAndSpace cmd.RequiredArgs.AppName
      cmd.Config.TargetedSpace.GUID with ⟨app, ws, _ | e3⟩
    · rcases hsa : cmd.Actor.StartApplication app.GUID with ⟨ws2, _ | e4⟩ <;>
      simp_all [V3StartCommand.Execute, V3StartCommand.lookup, V3StartCommand.lookupCall,
        V3StartCommand.start]
    · simp_all [V3StartCommand.lookup]
  · simp_all

theorem V3StartCommand.start_ok (cmd : V3StartCommand)
    (h : cmd.SharedActor.CheckTarget true true = none)
    (hu : cmd.Config.CurrentUser.2 = none) (hl : cmd.lookup.2.2 = none)
    (hs : cmd.lookup.1.State ≠ ApplicationStarted) (ha : cmd.start.2 = none) :
    cmd.Execute =
      ([V3StartCommand.experimental, cmd.lookupCall, .DisplayWarnings cmd.lookup.2.1,
        cmd.intent cmd.Config.CurrentUser.1, .StartApplication cmd.lookup.1.GUID,
        .DisplayWarnings cmd.start.1, .DisplayOK], none) := by
  rcases hcu : cmd.Config.CurrentUser with ⟨user, _ | e2⟩
  · rcases hga : cmd.Actor.GetApplicationByNameAndSpace cmd.RequiredArgs.AppName
      cmd.Config.TargetedSpace.GUID with ⟨app, ws, _ | e3⟩
    · rcases hsa : cmd.Actor.StartApplication app.GUID with ⟨ws2, _ | e4⟩ <;>
      simp_all [V3StartCommand.Execute, V3StartCommand.lookup, V3StartCommand.lookupCall,
        V3StartCommand.start]
    · simp_all [V3StartCommand.lookup]
  · simp_all

/-! ## The claims -/

/-- C1 (precondition short-circuit).  For `SetSpaceIsolationSegmentCommand.Execute`
and for `CheckRouteCommand.Execute`, and for every error `e`: if `CheckTarget`
returns `e`, or `CheckTarget` succeeds and `CurrentUser` returns `e`, then
`Execute` returns `e` itself, no actor operation is invoked and no UI call is
made. -/
theorem precondition_short_circuit :
    (∀ (cmd : SetSpaceIsolationSegmentCommand) (e : GoError),
      (cmd.SharedActor.CheckTarget true false = some e ∨
        (cmd.SharedActor.CheckTarget true false = none ∧ cmd.Config.CurrentUser.2 = some e)) →
      cmd.Execute.2 = some e ∧ actorCalls cmd.Execute.1 = [] ∧ uiCalls cmd.Execute.1 = []) ∧
    (∀ (cmd : CheckRouteCommand) (e : GoError),
      (cmd.SharedActor.CheckTarget true false = some e ∨
        (cmd.SharedActor.CheckTarget true false = none ∧ cmd.Config.CurrentUser.2 = some e)) →
      cmd.Execute.2 = some e ∧ actorCalls cmd.Execute.1 = [] ∧ uiCalls cmd.Execute.1 = []) := by
  refine ⟨fun cmd e h => ?_, fun cmd e h => ?_⟩
  · rcases h with h | ⟨h, hu⟩
    · simp [cmd.isolation_target_error h, actorCalls, uiCalls]
    · simp [cmd.isolation_user_error h hu, actorCalls, uiCalls]
  · rcases h with h | ⟨h, hu⟩
    · simp [cmd.route_target_error h, actorCalls, uiCalls]
    · simp [cmd.route_user_error h hu, actorCalls, uiCalls]

/-- Witness of C1: a `set-space-isolation-segment` whose `CheckTarget` fails, and
a `check-route` whose `CurrentUser` fails after `CheckTarget` succeeded. -/
theorem precondition_short_circuit_witness :
    ((fakeSetSpaceIsolationSegment (some ⟨"No org targeted"⟩) (⟨"steve"⟩, none)
        (⟨"some-space-guid", "some-space"⟩, ["get-warning"], none)
        (["assign-warning"], none)).Execute.2 = some ⟨"No org targeted"⟩ ∧
      actorCalls (fakeSetSpaceIsolationSegment (some ⟨"No org targeted"⟩) (⟨"steve"⟩, none)
        (⟨"some-space-guid", "some-space"⟩, ["get-warning"], none)
        (["assign-warning"], none)).Execute.1 = [] ∧
      uiCalls (fakeSetSpaceIsolationSegment (some ⟨"No org targeted"⟩) (⟨"steve"⟩, none)
        (⟨"some-space-guid", "some-space"⟩, ["get-warning"], none)
        (["assign-warning"], none)).Execute.1 = []) ∧
    ((fakeCheckRoute "example.com" "myhost" "/foo" 0 none (⟨""⟩, some ⟨"some current user error"⟩)
        (true, ["check-warning"], none)).Execute.2 = some ⟨"some current user error"⟩ ∧
      actorCalls (fakeCheckRoute "example.com" "myhost" "/foo" 0 none
        (⟨""⟩, some ⟨"some current user error"⟩) (true, ["check-warning"], none)).Execute.1 = [] ∧
      uiCalls (fakeCheckRoute "example.com" "myhost" "/foo" 0 none
        (⟨""⟩, some ⟨"some current user error"⟩) (true, ["check-warning"], none)).Execute.1 = []) :=
  ⟨precondition_short_circuit.1 _ _ (Or.inl rfl), precondition_short_circuit.2 _ _ (Or.inr ⟨rfl, rfl⟩)⟩

/-- C2 (warnings survive errors).  In `SetSpaceIsolationSegmentCommand.Execute`
with `CheckTarget` and `CurrentUser` succeeding, for all warnings `W1`, `W2` and
every error `e`: (a) if the space lookup returns `(_, W1, e)` then
`DisplayWarnings(W1)` is the last UI call, the assignment is never invoked and
`Execute` returns `e`; (b) if the lookup succeeds with `W1` and the assignment
returns `(W2, e)` then `DisplayWarnings(W1)` and then `DisplayWarnings(W2)` are
called, the latter being the last UI call, and `Execute` returns `e`.  In both
cases `DisplayOK` is not called. -/
theorem warnings_survive_errors (cmd : SetSpaceIsolationSegmentCommand)
    (hTarget : cmd.SharedActor.CheckTarget true false = none)
    (hUser : cmd.Config.CurrentUser.2 = none) :
    (∀ (space : Space) (W1 : Warnings) (e : GoError),
      cmd.ActorV2.GetSpaceByOrganizationAndName cmd.Config.TargetedOrganization.GUID
          cmd.RequiredArgs.SpaceName = (space, W1, some e) →
        cmd.Execute.2 = some e ∧
        uiCalls cmd.Execute.1 = [cmd.intent cmd.Config.CurrentUser.1, .DisplayWarnings W1] ∧
        assignCalls cmd.Execute.1 = [] ∧
        Event.DisplayOK ∉ cmd.Execute.1) ∧
    (∀ (space : Space) (W1 W2 : Warnings) (e : GoError),
      cmd.ActorV2.GetSpaceByOrganizationAndName cmd.Config.TargetedOrganization.GUID
          cmd.RequiredArgs.SpaceName = (space, W1, none) →
      cmd.Actor.AssignIsolationSegmentToSpaceByNameAndSpace cmd.RequiredArgs.IsolationSegmentName
          space.GUID = (W2, some e) →
        cmd.Execute.2 = some e ∧
        uiCalls cmd.Execute.1 =
          [cmd.intent cmd.Config.CurrentUser.1, .DisplayWarnings W1, .DisplayWarnings W2] ∧
        Event.DisplayOK ∉ cmd.Execute.1) := by
  refine ⟨fun space W1 e hl => ?_, fun space W1 W2 e hl ha => ?_⟩
  · have hl2 : cmd.lookup.2.2 = some e := by simp [SetSpaceIsolationSegmentCommand.lookup, hl]
    have hw : cmd.lookup.2.1 = W1 := by simp [SetSpaceIsolationSegmentCommand.lookup, hl]
    simp [cmd.isolation_lookup_error hTarget hUser hl2, hw, uiCalls, assignCalls,
      SetSpaceIsolationSegmentCommand.intent, SetSpaceIsolationSegmentCommand.lookupCall,
      Event.isUI]
  · have hl2 : cmd.lookup.2.2 = none := by simp [SetSpaceIsolationSegmentCommand.lookup, hl]
    have hw : cmd.lookup.2.1 = W1 := by simp [SetSpaceIsolationSegmentCommand.lookup, hl]
    have hg : cmd.lookup.1 = space := by simp [SetSpaceIsolationSegmentCommand.lookup, hl]
    have ha2 : cmd.assignment.2 = some e := by
      simp [SetSpaceIsolationSegmentCommand.assignment, hg, ha]
    have hw2 : cmd.assignment.1 = W2 := by
      simp [SetSpaceIsolationSegmentCommand.assignment, hg, ha]
    simp [cmd.isolation_assign_error hTarget hUser hl2 ha2, hw, hw2, uiCalls,
      SetSpaceIsolationSegmentCommand.intent, SetSpaceIsolationSegmentCommand.lookupCall,
      SetSpaceIsolationSegmentCommand.assignCall, Event.isUI]

/-- Witness of C2: the lookup fails with warnings in one run, the assignment
fails with warnings in another. -/
theorem warnings_survive_errors_witness :
    ((fakeSetSpaceIsolationSegment none (⟨"steve"⟩, none)
        (⟨"", ""⟩, ["get-warning-1", "get-warning-2"], some ⟨"space not found"⟩)
        ([], none)).Execute.2 = some ⟨"space not found"⟩ ∧
      uiCalls (fakeSetSpaceIsolationSegment none (⟨"steve"⟩, none)
        (⟨"", ""⟩, ["get-warning-1", "get-warning-2"], some ⟨"space not found"⟩)
        ([], none)).Execute.1 =
        [(fakeSetSpaceIsolationSegment none (⟨"steve"⟩, none)
            (⟨"", ""⟩, ["get-warning-1", "get-warning-2"], some ⟨"space not found"⟩)
            ([], none)).intent ⟨"steve"⟩,
          .DisplayWarnings ["get-warning-1", "get-warning-2"]] ∧
      assignCalls (fakeSetSpaceIsolationSegment none (⟨"steve"⟩, none)
        (⟨"", ""⟩, ["get-warning-1", "get-warning-2"], some ⟨"space not found"⟩)
        ([], none)).Execute.1 = [] ∧
      Event.DisplayOK ∉ (fakeSetSpaceIsolationSegment none (⟨"steve"⟩, none)
        (⟨"", ""⟩, ["get-warning-1", "get-warning-2"], some ⟨"space not found"⟩)
        ([], none)).Execute.1) ∧
    ((fakeSetSpaceIsolationSegment none (⟨"steve"⟩, none)
        (⟨"some-space-guid", "some-space"⟩, ["get-warning-1"], none)
        (["assign-warning-1", "assign-warning-2"], some ⟨"segment not found"⟩)).Execute.2 =
        some ⟨"segment not found"⟩ ∧
      uiCalls (fakeSetSpaceIsolationSegment none (⟨"steve"⟩, none)
        (⟨"some-space-guid", "some-space"⟩, ["get-warning-1"], none)
        (["assign-warning-1", "assign-warning-2"], some ⟨"segment not found"⟩)).Execute.1 =
        [(fakeSetSpaceIsolationSegment none (⟨"steve"⟩, none)
            (⟨"some-space-guid", "some-space"⟩, ["get-warning-1"], none)
            (["assign-warning-1", "assign-warning-2"], some ⟨"segment not found"⟩)).intent
            ⟨"steve"⟩,
          .DisplayWarnings ["get-warning-1"],
          .DisplayWarnings ["assign-warning-1", "assign-warning-2"]] ∧
      Event.DisplayOK ∉ (fakeSetSpaceIsolationSegment none (⟨"steve"⟩, none)
        (⟨"some-space-guid", "some-space"⟩, ["get-warning-1"], none)
        (["assign-warning-1", "assign-warning-2"], some ⟨"segment not found"⟩)).Execute.1) :=
  ⟨(warnings_survive_errors
      (fakeSetSpaceIsolationSegment none (⟨"steve"⟩, none)
        (⟨"", ""⟩, ["get-warning-1", "get-warning-2"], some ⟨"space not found"⟩) ([], none))
      rfl rfl).1 _ _ _ rfl,
   (warnings_survive_errors
      (fakeSetSpaceIsolationSegment none (⟨"steve"⟩, none)
        (⟨"some-space-guid", "some-space"⟩, ["get-warning-1"], none)
        (["assign-warning-1", "assign-warning-2"], some ⟨"segment not found"⟩))
      rfl rfl).2 _ _ _ _ rfl rfl⟩

/-- C3 (success marker gating).  For every combination of collaborator results,
`SetSpaceIsolationSegmentCommand.Execute` calls `DisplayOK` if and only if both
actor calls of its sequence (the space lookup, then the assignment) were made
and returned no error, and `CheckRouteCommand.Execute` calls `DisplayOK` if and
only if its actor call (`CheckRoute`) was made and returned no error.  In terms
of the collaborator results: if and only if `CheckTarget`, `CurrentUser` and the
actor operations all return no error (an actor call that a failed precondition
prevents has not returned). -/
theorem success_marker_gating :
    (∀ cmd : SetSpaceIsolationSegmentCommand,
      (Event.DisplayOK ∈ cmd.Execute.1 ↔
        cmd.lookupReturnedNoError ∧ cmd.assignReturnedNoError) ∧
      (Event.DisplayOK ∈ cmd.Execute.1 ↔
        cmd.SharedActor.CheckTarget true false = none ∧ cmd.Config.CurrentUser.2 = none ∧
          cmd.lookup.2.2 = none ∧ cmd.assignment.2 = none)) ∧
    (∀ cmd : CheckRouteCommand,
      (Event.DisplayOK ∈ cmd.Execute.1 ↔ cmd.checkReturnedNoError) ∧
      (Event.DisplayOK ∈ cmd.Execute.1 ↔
        cmd.SharedActor.CheckTarget true false = none ∧ cmd.Config.CurrentUser.2 = none ∧
          cmd.check.2.2 = none)) := by
  refine ⟨fun cmd => ?_, fun cmd => ?_⟩
  · rcases h1 : cmd.SharedActor.CheckTarget true false with _ | e1
    · rcases h2 : cmd.Config.CurrentUser.2 with _ | e2
      · rcases h3 : cmd.lookup.2.2 with _ | e3
        · rcases h4 : cmd.assignment.2 with _ | e4
          · have h3' := h3
            have h4' := h4
            simp only [SetSpaceIsolationSegmentCommand.lookup,
              SetSpaceIsolationSegmentCommand.assignment] at h3' h4'
            simp [SetSpaceIsolationSegmentCommand.lookupReturnedNoError,
              SetSpaceIsolationSegmentCommand.assignReturnedNoError,
              cmd.isolation_ok h1 h2 h3 h4, getSpaceCalls, assignCalls,
              SetSpaceIsolationSegmentCommand.intent, SetSpaceIsolationSegmentCommand.lookupCall,
              SetSpaceIsolationSegmentCommand.assignCall, SetSpaceIsolationSegmentCommand.hint,
              SetSpaceIsolationSegmentCommand.lookup, h3', h4']
          · simp [SetSpaceIsolationSegmentCommand.lookupReturnedNoError,
              SetSpaceIsolationSegmentCommand.assignReturnedNoError,
              cmd.isolation_assign_error h1 h2 h3 h4, getSpaceCalls, assignCalls,
              SetSpaceIsolationSegmentCommand.intent, SetSpaceIsolationSegmentCommand.lookupCall,
              SetSpaceIsolationSegmentCommand.assignCall]
            intro _
            have h4' := h4
            simp only [SetSpaceIsolationSegmentCommand.assignment] at h4'
            simp [h4']
        · simp [SetSpaceIsolationSegmentCommand.lookupReturnedNoError,
            SetSpaceIsolationSegmentCommand.assignReturnedNoError,
            cmd.isolation_lookup_error h1 h2 h3, getSpaceCalls, assignCalls,
            SetSpaceIsolationSegmentCommand.intent, SetSpaceIsolationSegmentCommand.lookupCall]
      · simp [SetSpaceIsolationSegmentCommand.lookupReturnedNoError,
          SetSpaceIsolationSegmentCommand.assignReturnedNoError,
          cmd.isolation_user_error h1 h2, getSpaceCalls, assignCalls]
    · simp [SetSpaceIsolationSegmentCommand.lookupReturnedNoError,
        SetSpaceIsolationSegmentCommand.assignReturnedNoError,
        cmd.isolation_target_error h1, getSpaceCalls, assignCalls]
  · rcases h1 : cmd.SharedActor.CheckTarget true false with _ | e1
    · rcases h2 : cmd.Config.CurrentUser.2 with _ | e2
      · rcases h3 : cmd.check.2.2 with _ | e3
        · have h3' := h3
          simp only [CheckRouteCommand.check] at h3'
          simp [CheckRouteCommand.checkReturnedNoError, cmd.route_ok h1 h2 h3, checkRouteCalls,
            CheckRouteCommand.intent, CheckRouteCommand.checkCall, h3']
        · have h3' := h3
          simp only [CheckRouteCommand.check] at h3'
          simp [CheckRouteCommand.checkReturnedNoError, cmd.route_check_error h1 h2 h3,
            checkRouteCalls, CheckRouteCommand.intent, CheckRouteCommand.checkCall, h3']
      · simp [CheckRouteCommand.checkReturnedNoError, cmd.route_user_error h1 h2, checkRouteCalls]
    · simp [CheckRouteCommand.checkReturnedNoError, cmd.route_target_error h1, checkRouteCalls]

/-- C4 (warning order preservation).  In every run of
`SetSpaceIsolationSegmentCommand.Execute` in which both the space lookup and
the assignment are called, `DisplayWarnings` is called exactly twice: first
with the warnings the lookup returned, then with the warnings the assignment
returned, each list as it was returned. -/
theorem warning_order_preserved (cmd : SetSpaceIsolationSegmentCommand)
    (hBoth : getSpaceCalls cmd.Execute.1 ≠ [] ∧ assignCalls cmd.Execute.1 ≠ []) :
    getSpaceCalls cmd.Execute.1 =
        [(cmd.Config.TargetedOrganization.GUID, cmd.RequiredArgs.SpaceName)] ∧
      assignCalls cmd.Execute.1 = [(cmd.RequiredArgs.IsolationSegmentName, cmd.lookup.1.GUID)] ∧
      displayedWarnings cmd.Execute.1 = [cmd.lookup.2.1, cmd.assignment.1] := by
  rcases h1 : cmd.SharedActor.CheckTarget true false with _ | e1
  · rcases h2 : cmd.Config.CurrentUser.2 with _ | e2
    · rcases h3 : cmd.lookup.2.2 with _ | e3
      · rcases h4 : cmd.assignment.2 with _ | e4
        · simp [cmd.isolation_ok h1 h2 h3 h4, getSpaceCalls, assignCalls, displayedWarnings,
            SetSpaceIsolationSegmentCommand.intent, SetSpaceIsolationSegmentCommand.lookupCall,
            SetSpaceIsolationSegmentCommand.assignCall, SetSpaceIsolationSegmentCommand.hint]
        · simp [cmd.isolation_assign_error h1 h2 h3 h4, getSpaceCalls, assignCalls, displayedWarnings,
            SetSpaceIsolationSegmentCommand.intent, SetSpaceIsolationSegmentCommand.lookupCall,
            SetSpaceIsolationSegmentCommand.assignCall]
      · exact absurd (by
          simp [cmd.isolation_lookup_error h1 h2 h3, assignCalls,
            SetSpaceIsolationSegmentCommand.intent,
            SetSpaceIsolationSegmentCommand.lookupCall]) hBoth.2
    · exact absurd (by simp [cmd.isolation_user_error h1 h2, assignCalls]) hBoth.2
  · exact absurd (by simp [cmd.isolation_target_error h1, assignCalls]) hBoth.2

/-- Witness of C4: the run of the unit tests in which both calls succeed, with
a warning repeated within and across the two lists. -/
theorem warning_order_preserved_witness :
    getSpaceCalls (fakeSetSpaceIsolationSegment none (⟨"steve"⟩, none)
        (⟨"some-space-guid", "some-space"⟩, ["w-2", "w-1", "w-2"], none)
        (["w-1", "w-1"], none)).Execute.1 = [("some-org-guid", "some-space")] ∧
      assignCalls (fakeSetSpaceIsolationSegment none (⟨"steve"⟩, none)
        (⟨"some-space-guid", "some-space"⟩, ["w-2", "w-1", "w-2"], none)
        (["w-1", "w-1"], none)).Execute.1 = [("some-segment", "some-space-guid")] ∧
      displayedWarnings (fakeSetSpaceIsolationSegment none (⟨"steve"⟩, none)
        (⟨"some-space-guid", "some-space"⟩, ["w-2", "w-1", "w-2"], none)
        (["w-1", "w-1"], none)).Execute.1 = [["w-2", "w-1", "w-2"], ["w-1", "w-1"]] :=
  warning_order_preserved
    (fakeSetSpaceIsolationSegment none (⟨"steve"⟩, none)
      (⟨"some-space-guid", "some-space"⟩, ["w-2", "w-1", "w-2"], none) (["w-1", "w-1"], none))
    ⟨by decide, by decide⟩

/-- C5 (prerequisite resolution across API generations).  In
`SetSpaceIsolationSegmentCommand.Execute` the space lookup
`ActorV2.GetSpaceByOrganizationAndName` is called at most once, with the GUID of
the targeted organization and `RequiredArgs.SpaceName`; the assignment
`Actor.AssignIsolationSegmentToSpaceByNameAndSpace` is invoked if and only if
`CheckTarget`, `CurrentUser` and the lookup all returned no error, and then
exactly once, with `RequiredArgs.IsolationSegmentName` and the GUID of the space
the lookup returned. -/
theorem prerequisite_resolution (cmd : SetSpaceIsolationSegmentCommand) :
    (getSpaceCalls cmd.Execute.1 = [] ∨
      getSpaceCalls cmd.Execute.1 =
        [(cmd.Config.TargetedOrganization.GUID, cmd.RequiredArgs.SpaceName)]) ∧
    (assignCalls cmd.Execute.1 ≠ [] ↔
      cmd.SharedActor.CheckTarget true false = none ∧ cmd.Config.CurrentUser.2 = none ∧
        (cmd.ActorV2.GetSpaceByOrganizationAndName cmd.Config.TargetedOrganization.GUID
          cmd.RequiredArgs.SpaceName).2.2 = none) ∧
    (assignCalls cmd.Execute.1 = [] ∨
      assignCalls cmd.Execute.1 =
        [(cmd.RequiredArgs.IsolationSegmentName,
          (cmd.ActorV2.GetSpaceByOrganizationAndName cmd.Config.TargetedOrganization.GUID
            cmd.RequiredArgs.SpaceName).1.GUID)]) := by
  rcases h1 : cmd.SharedActor.CheckTarget true false with _ | e1
  · rcases h2 : cmd.Config.CurrentUser.2 with _ | e2
    · rcases h3 : cmd.lookup.2.2 with _ | e3
      · have h3' := h3
        simp only [SetSpaceIsolationSegmentCommand.lookup] at h3'
        rcases h4 : cmd.assignment.2 with _ | e4
        · simp [cmd.isolation_ok h1 h2 h3 h4, getSpaceCalls, assignCalls, h3',
            SetSpaceIsolationSegmentCommand.intent, SetSpaceIsolationSegmentCommand.lookupCall,
            SetSpaceIsolationSegmentCommand.assignCall, SetSpaceIsolationSegmentCommand.hint,
            SetSpaceIsolationSegmentCommand.lookup]
        · simp [cmd.isolation_assign_error h1 h2 h3 h4, getSpaceCalls, assignCalls, h3',
            SetSpaceIsolationSegmentCommand.intent, SetSpaceIsolationSegmentCommand.lookupCall,
            SetSpaceIsolationSegmentCommand.assignCall, SetSpaceIsolationSegmentCommand.lookup]
      · have h3' := h3
        simp only [SetSpaceIsolationSegmentCommand.lookup] at h3'
        simp [cmd.isolation_lookup_error h1 h2 h3, getSpaceCalls, assignCalls, h3',
          SetSpaceIsolationSegmentCommand.intent, SetSpaceIsolationSegmentCommand.lookupCall]
    · simp [cmd.isolation_user_error h1 h2, getSpaceCalls, assignCalls]
  · simp [cmd.isolation_target_error h1, getSpaceCalls, assignCalls]

/-- C6 (canonical route URL).  For every domain, hostname, path and port: with
a non-zero port `desiredURL` is the domain, a colon and the port in decimal,
whatever the hostname and the path; with port zero it is the domain, prefixed
by the hostname and a dot when the hostname is non-empty, followed by the path.
So `("example.com", "", "", 0)` gives `example.com`, `("example.com", "myhost",
"/foo", 0)` gives `myhost.example.com/foo` and `("example.com", "", "", 5000)`
gives `example.com:5000`. -/
theorem canonical_route_url :
    (∀ (domain hostname path : String) (port : Int),
      (port ≠ 0 → desiredURL domain hostname path port = domain ++ ":" ++ toString port) ∧
      (port = 0 → desiredURL domain hostname path port =
        (if hostname ≠ "" then hostname ++ "." ++ domain else domain) ++ path)) ∧
    desiredURL "example.com" "" "" 0 = "example.com" ∧
    desiredURL "example.com" "myhost" "/foo" 0 = "myhost.example.com/foo" ∧
    desiredURL "example.com" "" "" 5000 = "example.com:5000" := by
  refine ⟨fun domain hostname path port => ⟨fun h => ?_, fun h => ?_⟩, by decide, by decide,
    by decide⟩
  · simp [desiredURL, h]
  · subst h
    by_cases hp : path = ""
    · subst hp
      simp [desiredURL]
    · simp [desiredURL, hp]

/-- Witness of C6: the port mode at port 5000 with a hostname and a path given,
and the host mode at port 0. -/
theorem canonical_route_url_witness :
    desiredURL "example.com" "myhost" "/foo" 5000 = "example.com" ++ ":" ++ toString (5000 : Int) ∧
    desiredURL "example.com" "myhost" "/foo" 0 =
      (if "myhost" ≠ "" then "myhost" ++ "." ++ "example.com" else "example.com") ++ "/foo" :=
  ⟨(canonical_route_url.1 "example.com" "myhost" "/foo" 5000).1 (by decide),
   (canonical_route_url.1 "example.com" "myhost" "/foo" 0).2 rfl⟩

/-- Counterexample to C7 as stated: in a successful `check-route example.com
--hostname myhost --path /foo` run by `steve` in `some-org`, the first UI call,
the intent message, is `DisplayText("Checking for route...")` without
parameters; it names neither the domain, nor the hostname, nor the targeted
organization, nor the current user. -/
theorem intent_message_counterexample :
    (uiCalls (fakeCheckRoute "example.com" "myhost" "/foo" 0 none (⟨"steve"⟩, none)
        (true, [], none)).Execute.1).head? = some (.DisplayText "Checking for route..." []) ∧
    ¬ (Event.DisplayText "Checking for route..." []).names "example.com" ∧
    ¬ (Event.DisplayText "Checking for route..." []).names "myhost" ∧
    ¬ (Event.DisplayText "Checking for route..." []).names "some-org" ∧
    ¬ (Event.DisplayText "Checking for route..." []).names "steve" := by
  refine ⟨by decide, ?_, ?_, ?_, ?_⟩ <;> simp [Event.names, Event.text]

/-- C7, amended (intent message).  In every run of
`SetSpaceIsolationSegmentCommand.Execute` and of `CheckRouteCommand.Execute` in
which `CheckTarget` and `CurrentUser` both succeed, the intent message is
displayed exactly once and it is the first call of the run, before every other
UI call and every actor operation.  For `SetSpaceIsolationSegmentCommand` it
names `RequiredArgs.SpaceName`, the name of the targeted organization and the
name of the user `CurrentUser` returned; for `CheckRouteCommand` it is the fixed
text `Checking for route...`, which names nothing.  In every run in which
`CheckTarget` or `CurrentUser` fails, no UI call is made, hence no intent
message is displayed. -/
theorem intent_message :
    (∀ cmd : SetSpaceIsolationSegmentCommand,
      (cmd.SharedActor.CheckTarget true false = none ∧ cmd.Config.CurrentUser.2 = none →
        (∃ rest, cmd.Execute.1 = cmd.intent cmd.Config.CurrentUser.1 :: rest ∧
          cmd.intent cmd.Config.CurrentUser.1 ∉ rest) ∧
        (cmd.intent cmd.Config.CurrentUser.1).names cmd.RequiredArgs.SpaceName ∧
        (cmd.intent cmd.Config.CurrentUser.1).names cmd.Config.TargetedOrganization.Name ∧
        (cmd.intent cmd.Config.CurrentUser.1).names cmd.Config.CurrentUser.1.Name) ∧
      (cmd.SharedActor.CheckTarget true false ≠ none ∨ cmd.Config.CurrentUser.2 ≠ none →
        uiCalls cmd.Execute.1 = [])) ∧
    (∀ cmd : CheckRouteCommand,
      (cmd.SharedActor.CheckTarget true false = none ∧ cmd.Config.CurrentUser.2 = none →
        (∃ rest, cmd.Execute.1 = .DisplayText "Checking for route..." [] :: rest ∧
          Event.DisplayText "Checking for route..." [] ∉ rest) ∧
        ∀ v, ¬ (Event.DisplayText "Checking for route..." []).names v) ∧
      (cmd.SharedActor.CheckTarget true false ≠ none ∨ cmd.Config.CurrentUser.2 ≠ none →
        uiCalls cmd.Execute.1 = [])) := by
  refine ⟨fun cmd => ⟨fun h => ⟨?_, ?_, ?_, ?_⟩, fun h => ?_⟩,
    fun cmd => ⟨fun h => ⟨?_, ?_⟩, fun h => ?_⟩⟩
  · obtain ⟨h1, h2⟩ := h
    rcases h3 : cmd.lookup.2.2 with _ | e3
    · rcases h4 : cmd.assignment.2 with _ | e4
      · simp [cmd.isolation_ok h1 h2 h3 h4, SetSpaceIsolationSegmentCommand.intent,
          SetSpaceIsolationSegmentCommand.lookupCall, SetSpaceIsolationSegmentCommand.assignCall,
          SetSpaceIsolationSegmentCommand.hint]
      · simp [cmd.isolation_assign_error h1 h2 h3 h4, SetSpaceIsolationSegmentCommand.intent,
          SetSpaceIsolationSegmentCommand.lookupCall, SetSpaceIsolationSegmentCommand.assignCall]
    · simp [cmd.isolation_lookup_error h1 h2 h3, SetSpaceIsolationSegmentCommand.intent,
        SetSpaceIsolationSegmentCommand.lookupCall]
  · exact ⟨("SpaceName", cmd.RequiredArgs.SpaceName), by simp, rfl, by
      show interpolates _ "SpaceName"
      decide⟩
  · exact ⟨("OrgName", cmd.Config.TargetedOrganization.Name), by simp, rfl, by
      show interpolates _ "OrgName"
      decide⟩
  · exact ⟨("CurrentUser", cmd.Config.CurrentUser.1.Name), by simp, rfl, by
      show interpolates _ "CurrentUser"
      decide⟩
  · rcases h1 : cmd.SharedActor.CheckTarget true false with _ | e1
    · rcases h2 : cmd.Config.CurrentUser.2 with _ | e2
      · simp [h1, h2] at h
      · simp [cmd.isolation_user_error h1 h2, uiCalls]
    · simp [cmd.isolation_target_error h1, uiCalls]
  · obtain ⟨h1, h2⟩ := h
    rcases h3 : cmd.check.2.2 with _ | e3
    · rcases hm : cmd.check.1 <;>
        simp [cmd.route_ok h1 h2 h3, hm, CheckRouteCommand.intent, CheckRouteCommand.checkCall,
          CheckRouteCommand.status]
    · simp [cmd.route_check_error h1 h2 h3, CheckRouteCommand.intent, CheckRouteCommand.checkCall]
  · intro v
    simp [Event.names, Event.text]
  · rcases h1 : cmd.SharedActor.CheckTarget true false with _ | e1
    · rcases h2 : cmd.Config.CurrentUser.2 with _ | e2
      · simp [h1, h2] at h
      · simp [cmd.route_user_error h1 h2, uiCalls]
    · simp [cmd.route_target_error h1, uiCalls]

/-- Witness of C7, amended: the successful `set-space-isolation-segment` run,
a successful `check-route` run, and a run of each whose `CheckTarget` fails. -/
theorem intent_message_witness :
    ((∃ rest, successfulSetSpaceIsolationSegment.Execute.1 =
          successfulSetSpaceIsolationSegment.intent ⟨"steve"⟩ :: rest ∧
          successfulSetSpaceIsolationSegment.intent ⟨"steve"⟩ ∉ rest) ∧
      (successfulSetSpaceIsolationSegment.intent ⟨"steve"⟩).names "some-space" ∧
      (successfulSetSpaceIsolationSegment.intent ⟨"steve"⟩).names "some-org" ∧
      (successfulSetSpaceIsolationSegment.intent ⟨"steve"⟩).names "steve") ∧
    uiCalls (fakeSetSpaceIsolationSegment (some ⟨"No org targeted"⟩) (⟨"steve"⟩, none)
      (⟨"some-space-guid", "some-space"⟩, [], none) ([], none)).Execute.1 = [] ∧
    ((∃ rest, (successfulCheckRoute true).Execute.1 =
          .DisplayText "Checking for route..." [] :: rest ∧
          Event.DisplayText "Checking for route..." [] ∉ rest) ∧
      ∀ v, ¬ (Event.DisplayText "Checking for route..." []).names v) ∧
    uiCalls (fakeCheckRoute "example.com" "" "" 0 (some ⟨"No org targeted"⟩) (⟨"steve"⟩, none)
      (true, [], none)).Execute.1 = [] :=
  ⟨(intent_message.1 successfulSetSpaceIsolationSegment).1 ⟨rfl, rfl⟩,
   (intent_message.1 (fakeSetSpaceIsolationSegment (some ⟨"No org targeted"⟩) (⟨"steve"⟩, none)
      (⟨"some-space-guid", "some-space"⟩, [], none) ([], none))).2 (Or.inl (by decide)),
   (intent_message.2 (successfulCheckRoute true)).1 ⟨rfl, rfl⟩,
   (intent_message.2 (fakeCheckRoute "example.com" "" "" 0 (some ⟨"No org targeted"⟩)
      (⟨"steve"⟩, none) (true, [], none))).2 (Or.inl (by decide))⟩

/-- Counterexample to C8 as stated: the successful run of
`set-space-isolation-segment` returns no error, and its UI calls end with
`DisplayOK` followed by a `DisplayText` line; `DisplayOK` is not the last UI
call and the `DisplayText` line does not precede it. -/
theorem success_report_order_counterexample :
    successfulSetSpaceIsolationSegment.Execute.2 = none ∧
    uiCalls successfulSetSpaceIsolationSegment.Execute.1 =
      [.DisplayTextWithFlavor
          "Updating isolation segment of space {{.SpaceName}} in org {{.OrgName}} as {{.CurrentUser}}..."
          [("SegmentName", "some-segment"), ("SpaceName", "some-space"), ("OrgName", "some-org"),
           ("CurrentUser", "steve")],
        .DisplayWarnings ["get-warning-1", "get-warning-2"],
        .DisplayWarnings ["assign-warning-1", "assign-warning-2"],
        .DisplayOK,
        .DisplayText
          "In order to move running applications to this isolation segment, they must be restarted."
          []] ∧
    (uiCalls successfulSetSpaceIsolationSegment.Execute.1).getLast? ≠ some .DisplayOK := by
  refine ⟨rfl, rfl, by decide⟩

/-- C8, amended (order of the success report).  In every run of
`CheckRouteCommand.Execute` that returns no error, the UI calls are the intent
message, the warnings of the route check, the `DisplayText` status line and
then `DisplayOK`, which is the last UI call.  In every run of
`SetSpaceIsolationSegmentCommand.Execute` that returns no error, the UI calls
are the intent message, the warnings of the lookup, the warnings of the
assignment, `DisplayOK` and then the closing `DisplayText` line, which is the
last UI call. -/
theorem success_report_order :
    (∀ cmd : CheckRouteCommand, cmd.Execute.2 = none →
      uiCalls cmd.Execute.1 =
        [.DisplayText "Checking for route..." [], .DisplayWarnings cmd.check.2.1,
         cmd.status cmd.check.1, .DisplayOK]) ∧
    (∀ cmd : SetSpaceIsolationSegmentCommand, cmd.Execute.2 = none →
      uiCalls cmd.Execute.1 =
        [cmd.intent cmd.Config.CurrentUser.1, .DisplayWarnings cmd.lookup.2.1,
         .DisplayWarnings cmd.assignment.1, .DisplayOK,
         .DisplayText
           "In order to move running applications to this isolation segment, they must be restarted."
           []]) := by
  refine ⟨fun cmd h => ?_, fun cmd h => ?_⟩
  · rcases h1 : cmd.SharedActor.CheckTarget true false with _ | e1
    · rcases h2 : cmd.Config.CurrentUser.2 with _ | e2
      · rcases h3 : cmd.check.2.2 with _ | e3
        · rcases hm : cmd.check.1 <;>
            simp [cmd.route_ok h1 h2 h3, hm, uiCalls, CheckRouteCommand.intent,
              CheckRouteCommand.checkCall, CheckRouteCommand.status, Event.isUI]
        · simp [cmd.route_check_error h1 h2 h3] at h
      · simp [cmd.route_user_error h1 h2] at h
    · simp [cmd.route_target_error h1] at h
  · rcases h1 : cmd.SharedActor.CheckTarget true false with _ | e1
    · rcases h2 : cmd.Config.CurrentUser.2 with _ | e2
      · rcases h3 : cmd.lookup.2.2 with _ | e3
        · rcases h4 : cmd.assignment.2 with _ | e4
          · simp [cmd.isolation_ok h1 h2 h3 h4, uiCalls, SetSpaceIsolationSegmentCommand.intent,
              SetSpaceIsolationSegmentCommand.lookupCall,
              SetSpaceIsolationSegmentCommand.assignCall, SetSpaceIsolationSegmentCommand.hint,
              Event.isUI]
          · simp [cmd.isolation_assign_error h1 h2 h3 h4] at h
        · simp [cmd.isolation_lookup_error h1 h2 h3] at h
      · simp [cmd.isolation_user_error h1 h2] at h
    · simp [cmd.isolation_target_error h1] at h

/-- Witness of C8, amended: a successful `check-route` run whose route exists,
and the successful `set-space-isolation-segment` run. -/
theorem success_report_order_witness :
    uiCalls (successfulCheckRoute true).Execute.1 =
        [.DisplayText "Checking for route..." [],
         .DisplayWarnings ["check-warning-1", "check-warning-2"],
         (successfulCheckRoute true).status true, .DisplayOK] ∧
    uiCalls successfulSetSpaceIsolationSegment.Execute.1 =
        [successfulSetSpaceIsolationSegment.intent ⟨"steve"⟩,
         .DisplayWarnings ["get-warning-1", "get-warning-2"],
         .DisplayWarnings ["assign-warning-1", "assign-warning-2"], .DisplayOK,
         .DisplayText
           "In order to move running applications to this isolation segment, they must be restarted."
           []] :=
  ⟨success_report_order.1 (successfulCheckRoute true) rfl,
   success_report_order.2 successfulSetSpaceIsolationSegment rfl⟩

/-- C9 (v3-start gating).  With `CheckTarget(true, true)` and `CurrentUser`
succeeding, `V3StartCommand.Execute` always displays the warnings the
application lookup returned; it displays the `Starting app ...` intent message
and invokes `StartApplication` if and only if the lookup returned no error and
an application whose state is not `STARTED`, and then `StartApplication` is
invoked exactly once, with the GUID of that application.  When the lookup fails
`Execute` returns the lookup error itself; when the application is already
started `Execute` returns no error and displays the success marker without
invoking `StartApplication`. -/
theorem v3_start_gating (cmd : V3StartCommand)
    (hTarget : cmd.SharedActor.CheckTarget true true = none)
    (hUser : cmd.Config.CurrentUser.2 = none) :
    Event.DisplayWarnings cmd.lookup.2.1 ∈ cmd.Execute.1 ∧
    (cmd.intent cmd.Config.CurrentUser.1 ∈ cmd.Execute.1 ↔
      cmd.lookup.2.2 = none ∧ cmd.lookup.1.State ≠ ApplicationStarted) ∧
    (startCalls cmd.Execute.1 ≠ [] ↔
      cmd.lookup.2.2 = none ∧ cmd.lookup.1.State ≠ ApplicationStarted) ∧
    (startCalls cmd.Execute.1 = [] ∨ startCalls cmd.Execute.1 = [cmd.lookup.1.GUID]) ∧
    (∀ e, cmd.lookup.2.2 = some e → cmd.Execute.2 = some e) ∧
    (cmd.lookup.2.2 = none ∧ cmd.lookup.1.State = ApplicationStarted →
      cmd.Execute.2 = none ∧ Event.DisplayOK ∈ cmd.Execute.1 ∧ startCalls cmd.Execute.1 = []) := by
  rcases h3 : cmd.lookup.2.2 with _ | e3
  · by_cases hs : cmd.lookup.1.State = ApplicationStarted
    · simp [cmd.start_already_started hTarget hUser h3 hs, hs, startCalls,
        V3StartCommand.experimental, V3StartCommand.lookupCall, V3StartCommand.alreadyStarted,
        V3StartCommand.intent]
    · rcases h4 : cmd.start.2 with _ | e4
      · simp [cmd.start_ok hTarget hUser h3 hs h4, hs, startCalls,
          V3StartCommand.experimental, V3StartCommand.lookupCall, V3StartCommand.intent]
      · simp [cmd.start_start_error hTarget hUser h3 hs h4, hs, startCalls,
          V3StartCommand.experimental, V3StartCommand.lookupCall, V3StartCommand.intent]
  · simp [cmd.start_lookup_error hTarget hUser h3, startCalls,
      V3StartCommand.experimental, V3StartCommand.lookupCall, V3StartCommand.intent]

/-- Witness of C9: the run of the unit tests in which the application is
stopped and both actor calls succeed. -/
theorem v3_start_gating_witness :
    Event.DisplayWarnings ["get-warning-1", "get-warning-2"] ∈
      (fakeV3Start none (⟨"steve"⟩, none)
        (⟨"some-app-guid", ApplicationStopped⟩, ["get-warning-1", "get-warning-2"], none)
        (["start-warning-1", "start-warning-2"], none)).Execute.1 ∧
    startCalls (fakeV3Start none (⟨"steve"⟩, none)
        (⟨"some-app-guid", ApplicationStopped⟩, ["get-warning-1", "get-warning-2"], none)
        (["start-warning-1", "start-warning-2"], none)).Execute.1 ≠ [] ∧
    (startCalls (fakeV3Start none (⟨"steve"⟩, none)
        (⟨"some-app-guid", ApplicationStopped⟩, ["get-warning-1", "get-warning-2"], none)
        (["start-warning-1", "start-warning-2"], none)).Execute.1 = [] ∨
      startCalls (fakeV3Start none (⟨"steve"⟩, none)
        (⟨"some-app-guid", ApplicationStopped⟩, ["get-warning-1", "get-warning-2"], none)
        (["start-warning-1", "start-warning-2"], none)).Execute.1 = ["some-app-guid"]) :=
  ⟨(v3_start_gating (fakeV3Start none (⟨"steve"⟩, none)
      (⟨"some-app-guid", ApplicationStopped⟩, ["get-warning-1", "get-warning-2"], none)
      (["start-warning-1", "start-warning-2"], none)) rfl rfl).1,
   (v3_start_gating (fakeV3Start none (⟨"steve"⟩, none)
      (⟨"some-app-guid", ApplicationStopped⟩, ["get-warning-1", "get-warning-2"], none)
      (["start-warning-1", "start-warning-2"], none)) rfl rfl).2.2.1.2 ⟨rfl, by decide⟩,
   (v3_start_gating (fakeV3Start none (⟨"steve"⟩, none)
      (⟨"some-app-guid", ApplicationStopped⟩, ["get-warning-1", "get-warning-2"], none)
      (["start-warning-1", "start-warning-2"], none)) rfl rfl).2.2.2.1⟩

/-- C10 (check-route outcome report).  For every domain, hostname, path, port,
boolean `matched` and warnings `W`: if `CheckTarget` and `CurrentUser` succeed
and `Actor.CheckRoute` returns `(matched, W, nil)`, then
`CheckRouteCommand.Execute` returns no error, calls `Actor.CheckRoute` exactly
once, with `RequiredArgs.Domain`, `Hostname`, `Path.Path` and `Port`, and its UI
calls are, in order: `DisplayText("Checking for route...")`,
`DisplayWarnings(W)`, `DisplayText` of `Route '{{.URL}}' does exist.` when
`matched` is true and of `Route '{{.URL}}' does not exist.` when it is false,
with `URL` the `desiredURL` of the four values passed to `CheckRoute`, then
`DisplayOK`. -/
theorem check_route_outcome_report (cmd : CheckRouteCommand) (matched : Bool) (W : Warnings)
    (hTarget : cmd.SharedActor.CheckTarget true false = none)
    (hUser : cmd.Config.CurrentUser.2 = none)
    (hCheck : cmd.Actor.CheckRoute cmd.RequiredArgs.Domain cmd.Hostname cmd.Path.Path cmd.Port =
      (matched, W, none)) :
    cmd.Execute.2 = none ∧
    actorCalls cmd.Execute.1 =
      [.CheckRoute cmd.RequiredArgs.Domain cmd.Hostname cmd.Path.Path cmd.Port] ∧
    uiCalls cmd.Execute.1 =
      [.DisplayText "Checking for route..." [],
       .DisplayWarnings W,
       .DisplayText
         (if matched then "Route '{{.URL}}' does exist." else "Route '{{.URL}}' does not exist.")
         [("URL", desiredURL cmd.RequiredArgs.Domain cmd.Hostname cmd.Path.Path cmd.Port)],
       .DisplayOK] := by
  have h3 : cmd.check.2.2 = none := by simp [CheckRouteCommand.check, hCheck]
  have hw : cmd.check.2.1 = W := by simp [CheckRouteCommand.check, hCheck]
  have hm : cmd.check.1 = matched := by simp [CheckRouteCommand.check, hCheck]
  cases matched <;>
    simp [cmd.route_ok hTarget hUser h3, hw, hm, uiCalls, actorCalls, CheckRouteCommand.intent,
      CheckRouteCommand.checkCall, CheckRouteCommand.status, Event.isUI, Event.isActorCall]

/-- Witness of C10: a route that exists and a TCP route that does not. -/
theorem check_route_outcome_report_witness :
    ((successfulCheckRoute true).Execute.2 = none ∧
      actorCalls (successfulCheckRoute true).Execute.1 =
        [.CheckRoute "example.com" "myhost" "/foo" 0] ∧
      uiCalls (successfulCheckRoute true).Execute.1 =
        [.DisplayText "Checking for route..." [],
         .DisplayWarnings ["check-warning-1", "check-warning-2"],
         .DisplayText "Route '{{.URL}}' does exist." [("URL", "myhost.example.com/foo")],
         .DisplayOK]) ∧
    ((fakeCheckRoute "example.com" "" "" 5000 none (⟨"steve"⟩, none) (false, [], none)).Execute.2 =
        none ∧
      actorCalls (fakeCheckRoute "example.com" "" "" 5000 none (⟨"steve"⟩, none)
        (false, [], none)).Execute.1 = [.CheckRoute "example.com" "" "" 5000] ∧
      uiCalls (fakeCheckRoute "example.com" "" "" 5000 none (⟨"steve"⟩, none)
        (false, [], none)).Execute.1 =
        [.DisplayText "Checking for route..." [],
         .DisplayWarnings [],
         .DisplayText "Route '{{.URL}}' does not exist." [("URL", "example.com:5000")],
         .DisplayOK]) :=
  ⟨check_route_outcome_report (successfulCheckRoute true) true _ rfl rfl rfl,
   check_route_outcome_report
     (fakeCheckRoute "example.com" "" "" 5000 none (⟨"steve"⟩, none) (false, [], none))
     false _ rfl rfl rfl⟩

end CLI
